import Mathlib

/-
Verification of the portfolio screen in
src/portfolio_app/app/(tabs)/index.tsx and src/unnamed/part_000.

The screen is embedded shallowly:
* the StyleSheet is data (`Styles`, `styles`);
* the React element tree is the inductive `Element`, parameterised by the
  type `H` of press handlers, so that `HeroSection` literally forwards the
  callback it receives;
* the single mutable cell `scrollViewRef.current` becomes an explicit
  `Option ScrollViewHandle` argument: the closure `handleViewWork` reads it
  at press time, and the commands it issues against the scroll view are the
  explicit `List ScrollCommand` it returns next to its `Unit` result value;
* numeric style constants are rationals, so -0.8 and 0.04 are exact.
-/

-- ============================================================================
-- STYLESHEET (from `const styles = StyleSheet.create({...})`)
-- ============================================================================

/-- Names of the entries of the `styles` object. The source entry `section`
is a Lean keyword, so it is written `sectionStyle` here. -/
inductive Style where
  | container | content
  | hero | name | role | tagline | ctaButton | ctaButtonPressed | ctaText
  | sectionStyle | sectionTitle | text
  | projectsContainer | projectCard | projectTitle | projectDescription | projectTech
deriving DecidableEq, Repr

/-- Keys occurring in the style records of the source. -/
inductive StyleKey where
  | backgroundColor | paddingHorizontal | paddingTop | paddingBottom
  | marginBottom | marginTop | fontSize | fontWeight | color | letterSpacing
  | lineHeight | maxWidth | paddingVertical | borderRadius | alignSelf
  | borderLeftWidth | borderLeftColor | shadowColor | shadowOffset
  | shadowOpacity | shadowRadius | elevation | gap | overflow
deriving DecidableEq, Repr

/-- A style value: a number, a string, or the `{width, height}` record of
`shadowOffset`. -/
inductive StyleValue where
  | num (q : ℚ)
  | str (s : String)
  | offset (width height : ℚ)
deriving DecidableEq, Repr

/-- One style record is its list of key/value pairs, in source order. -/
def StyleRecord : Type := List (StyleKey × StyleValue)

/-- The shape of the `styles` object of the screen. -/
structure Styles where
  container : StyleRecord
  content : StyleRecord
  hero : StyleRecord
  name : StyleRecord
  role : StyleRecord
  tagline : StyleRecord
  ctaButton : StyleRecord
  ctaButtonPressed : StyleRecord
  ctaText : StyleRecord
  sectionStyle : StyleRecord
  sectionTitle : StyleRecord
  text : StyleRecord
  projectsContainer : StyleRecord
  projectCard : StyleRecord
  projectTitle : StyleRecord
  projectDescription : StyleRecord
  projectTech : StyleRecord

/-- Argument of `StyleSheet.create` in src/portfolio_app/app/(tabs)/index.tsx. -/
def styles : Styles where
  container := [(.backgroundColor, .str "#FAFBFC")]
  content := [(.paddingHorizontal, .num 24), (.paddingTop, .num 40),
    (.paddingBottom, .num 60)]
  hero := [(.marginBottom, .num 72)]
  name := [(.fontSize, .num 44), (.fontWeight, .str "700"),
    (.color, .str "#0F172A"), (.letterSpacing, .num (-0.8)),
    (.lineHeight, .num 52), (.marginBottom, .num 8)]
  role := [(.fontSize, .num 22), (.fontWeight, .str "600"),
    (.color, .str "#475569"), (.lineHeight, .num 32), (.marginBottom, .num 16)]
  tagline := [(.fontSize, .num 17), (.fontWeight, .str "400"),
    (.color, .str "#64748B"), (.lineHeight, .num 26), (.maxWidth, .num 360),
    (.marginBottom, .num 32)]
  ctaButton := [(.marginTop, .num 8), (.paddingVertical, .num 12),
    (.paddingHorizontal, .num 28), (.backgroundColor, .str "#E0E7FF"),
    (.borderRadius, .num 8), (.alignSelf, .str "flex-start")]
  ctaButtonPressed := [(.backgroundColor, .str "#C7D2FE")]
  ctaText := [(.fontSize, .num 15), (.fontWeight, .str "600"),
    (.color, .str "#3730A3"), (.lineHeight, .num 20)]
  sectionStyle := [(.marginBottom, .num 64)]
  sectionTitle := [(.fontSize, .num 28), (.fontWeight, .str "700"),
    (.color, .str "#0F172A"), (.marginBottom, .num 16), (.lineHeight, .num 36)]
  text := [(.fontSize, .num 16), (.fontWeight, .str "400"),
    (.color, .str "#334155"), (.lineHeight, .num 28), (.marginBottom, .num 0)]
  projectsContainer := [(.marginTop, .num 28), (.gap, .num 16)]
  projectCard := [(.backgroundColor, .str "#FFFFFF"), (.borderRadius, .num 10),
    (.paddingVertical, .num 20), (.paddingHorizontal, .num 20),
    (.borderLeftWidth, .num 4), (.borderLeftColor, .str "#4F46E5"),
    (.shadowColor, .str "#000"), (.shadowOffset, .offset 0 2),
    (.shadowOpacity, .num 0.04), (.shadowRadius, .num 6), (.elevation, .num 2)]
  projectTitle := [(.fontSize, .num 18), (.fontWeight, .str "700"),
    (.color, .str "#0F172A"), (.marginBottom, .num 12), (.lineHeight, .num 26)]
  projectDescription := [(.fontSize, .num 15), (.fontWeight, .str "400"),
    (.color, .str "#475569"), (.lineHeight, .num 25), (.marginBottom, .num 14)]
  projectTech := [(.fontSize, .num 13), (.fontWeight, .str "600"),
    (.color, .str "#4F46E5"), (.backgroundColor, .str "#EEF2FF"),
    (.paddingVertical, .num 6), (.paddingHorizontal, .num 12),
    (.borderRadius, .num 5), (.overflow, .str "hidden"),
    (.alignSelf, .str "flex-start")]

-- ============================================================================
-- SCROLL REF AND THE PRESS HANDLER
-- ============================================================================

/-- An attached native scroll view (the non-null value of
`scrollViewRef.current`); it carries no observable data of its own. -/
abbrev ScrollViewHandle : Type := Unit

/-- A command issued against the scroll view:
`scrollTo({ y, animated })`. -/
structure ScrollToArgs where
  y : Int
  animated : Bool
deriving DecidableEq, Repr

/-- The imperative calls a handler can make on the scroll view. -/
inductive ScrollCommand where
  | scrollTo (args : ScrollToArgs)
deriving DecidableEq, Repr

/-- Handler `handleViewWork = () => { scrollViewRef.current?.scrollTo({ y: 450, animated: true }); }`.
The captured mutable cell `scrollViewRef.current` is the explicit argument;
the handler returns no value (`Unit`) and the scroll calls it makes are the
returned command list. Optional chaining on `null` makes no call. -/
def handleViewWork (current : Option ScrollViewHandle) :
    Unit × List ScrollCommand :=
  match current with
  | some _ => ((), [ScrollCommand.scrollTo { y := 450, animated := true }])
  | none => ((), [])

/-- The type of the `onViewWorkPress` callback as the screen passes it:
a reading of the captured ref cell producing a unit result and the scroll
commands performed. -/
abbrev Handler : Type := Option ScrollViewHandle → Unit × List ScrollCommand

-- ============================================================================
-- ELEMENT TREE
-- ============================================================================

/-- The React element tree produced by the screen, over a handler type `H`.
`view` and `text` carry their single style name; `pressable` carries the
source style function of the pressed flag and its `onPress` handler;
`scrollView` records whether `ref={scrollViewRef}` is attached, its `style`
and its `contentContainerStyle`. -/
inductive Element (H : Type) where
  | view (style : Style) (children : List (Element H))
  | text (style : Style) (content : String)
  | pressable (style : Bool → List Style) (onPress : H)
      (children : List (Element H))
  | scrollView (hasRef : Bool) (style : Style) (contentContainerStyle : Style)
      (children : List (Element H))

variable {H : Type}

-- ============================================================================
-- SECTION COMPONENTS (from the source, top to bottom)
-- ============================================================================

/-- Component `HeroSection({ onViewWorkPress })`: name, role, tagline and the CTA
`Pressable` whose style is
`({pressed}) => [styles.ctaButton, pressed && styles.ctaButtonPressed]`
(the `false` entry of an unpressed render is dropped, as React Native does)
and whose `onPress` is the forwarded callback. -/
def HeroSection (onViewWorkPress : H) : Element H :=
  .view .hero [
    .text .name "Smriti Ray",
    .text .role "Aspiring Data Analyst",
    .text .tagline "Turning data into clear, actionable insights.",
    .pressable
      (fun pressed =>
        if pressed then [Style.ctaButton, Style.ctaButtonPressed]
        else [Style.ctaButton])
      onViewWorkPress
      [.text .ctaText "View My Work"]
  ]

/-- Component `AboutSection()`: title and one paragraph. -/
def AboutSection : Element H :=
  .view .sectionStyle [
    .text .sectionTitle "About Me",
    .text .text "I\x27m learning to be a data analyst by working through real problems. I find it exciting when data reveals something useful or interesting—and I focus on making sure my analysis is clear and honest rather than just impressive-looking. I\x27m still growing, but I\x27m committed to doing thoughtful work."
  ]

/-- Component `ProjectCard({ title, description, tech })`. -/
def ProjectCard (title description tech : String) : Element H :=
  .view .projectCard [
    .text .projectTitle title,
    .text .projectDescription description,
    .text .projectTech tech
  ]

/-- The `ProjectData` interface: `{id, title, description, tech}`. -/
structure ProjectData where
  id : Int
  title : String
  description : String
  tech : String
deriving DecidableEq, Repr

/-- Component `ProjectsSection({ projects })`: title, intro paragraph, and one
`ProjectCard` per entry of `projects`, via `projects.map`. -/
def ProjectsSection (projects : List ProjectData) : Element H :=
  .view .sectionStyle [
    .text .sectionTitle "Projects",
    .text .text "This portfolio shows projects I\x27ve completed through coursework and personal practice. I work with Excel, SQL, and Python to clean data and find insights. Each project taught me something new about how to approach a problem thoughtfully.",
    .view .projectsContainer
      (projects.map (fun project =>
        ProjectCard project.title project.description project.tech))
  ]

/-- Component `ContactSection()`: title and two contact lines. -/
def ContactSection : Element H :=
  .view .sectionStyle [
    .text .sectionTitle "Get in Touch",
    .text .text "Email: smritiray2.sr@gmail.com",
    .text .text "GitHub: github.com/smritiray2-sr"
  ]

-- ============================================================================
-- MAIN SCREEN COMPONENT
-- ============================================================================

/-- The `projects: ProjectData[]` literal of `HomeScreen`. -/
def projects : List ProjectData := [
  { id := 1,
    title := "Sales Performance Analysis",
    description := "Analyzed quarterly sales data to identify trends and top-performing regions. Cleaned and visualized data to support business decisions.",
    tech := "Excel, SQL, Tableau" },
  { id := 2,
    title := "Customer Segmentation Study",
    description := "Used Python to segment customers based on purchase behavior and demographics. Created visualizations to guide marketing strategy.",
    tech := "Python, Pandas, Matplotlib" },
  { id := 3,
    title := "Inventory Data Cleanup Project",
    description := "Identified and fixed data quality issues in a product inventory dataset. Documented processes for ongoing data maintenance.",
    tech := "Excel, Python, SQL" }
]

/-- Component `HomeScreen()`: the `ScrollView` with `ref={scrollViewRef}`,
`style={styles.container}`, `contentContainerStyle={styles.content}` and
the four sections in source order. The argument is the current value of the
mutable cell `scrollViewRef.current`; the body never reads it (only the
press handler does, at press time), so it appears unused on the right. -/
def HomeScreen (_current : Option ScrollViewHandle) : Element Handler :=
  .scrollView true .container .content [
    HeroSection handleViewWork,
    AboutSection,
    ProjectsSection projects,
    ContactSection
  ]

/-- Pressing the CTA against a screen whose ref cell holds `st`: the
handler body contains no write to the cell, so the post-state is the
pre-state; the result and commands are those of `handleViewWork`. -/
def pressViewWork (st : Option ScrollViewHandle) :
    Option ScrollViewHandle × Unit × List ScrollCommand :=
  (st, handleViewWork st)

-- ============================================================================
-- OBSERVATIONS ON THE RENDERED TREE
-- ============================================================================

mutual

/-- All `onPress` handlers registered in a tree, in document order. -/
def pressHandlers : Element H → List H
  | .view _ cs => pressHandlersList cs
  | .text _ _ => []
  | .pressable _ onPress cs => onPress :: pressHandlersList cs
  | .scrollView _ _ _ cs => pressHandlersList cs

def pressHandlersList : List (Element H) → List H
  | [] => []
  | e :: es => pressHandlers e ++ pressHandlersList es

end

mutual

/-- All project cards of a tree (subtrees that are a `View` styled
`styles.projectCard`), in document order. -/
def cards : Element H → List (Element H)
  | .view s cs =>
      if s = Style.projectCard then [.view s cs] else cardsList cs
  | .text _ _ => []
  | .pressable _ _ cs => cardsList cs
  | .scrollView _ _ _ cs => cardsList cs

def cardsList : List (Element H) → List (Element H)
  | [] => []
  | e :: es => cards e ++ cardsList es

end

/-- The text contents of the direct `Text` children of a node, in order. -/
def directTexts : Element H → List String
  | .view _ cs => cs.filterMap (fun c => match c with
      | .text _ s => some s
      | _ => none)
  | .text _ s => [s]
  | .pressable _ _ cs => cs.filterMap (fun c => match c with
      | .text _ s => some s
      | _ => none)
  | .scrollView _ _ _ cs => cs.filterMap (fun c => match c with
      | .text _ s => some s
      | _ => none)

/-- The children of the top-level scrollable container (empty when the root
is not a `ScrollView`). -/
def scrollChildren : Element H → List (Element H)
  | .scrollView _ _ _ cs => cs
  | _ => []

/-- Whether the root scrollable container has the screen ref attached. -/
def scrollHasRef : Element H → Bool
  | .scrollView hasRef _ _ _ => hasRef
  | _ => false

-- ============================================================================
-- THE UNNAMED SOURCE FILE (src/unnamed/part_000), embedded separately
-- ============================================================================

namespace Unnamed

/-- Argument of `StyleSheet.create` in src/unnamed/part_000. -/
def styles : Styles where
  container := [(.backgroundColor, .str "#FAFBFC")]
  content := [(.paddingHorizontal, .num 24), (.paddingTop, .num 40),
    (.paddingBottom, .num 60)]
  hero := [(.marginBottom, .num 72)]
  name := [(.fontSize, .num 44), (.fontWeight, .str "700"),
    (.color, .str "#0F172A"), (.letterSpacing, .num (-0.8)),
    (.lineHeight, .num 52), (.marginBottom, .num 8)]
  role := [(.fontSize, .num 22), (.fontWeight, .str "600"),
    (.color, .str "#475569"), (.lineHeight, .num 32), (.marginBottom, .num 16)]
  tagline := [(.fontSize, .num 17), (.fontWeight, .str "400"),
    (.color, .str "#64748B"), (.lineHeight, .num 26), (.maxWidth, .num 360),
    (.marginBottom, .num 32)]
  ctaButton := [(.marginTop, .num 8), (.paddingVertical, .num 12),
    (.paddingHorizontal, .num 28), (.backgroundColor, .str "#E0E7FF"),
    (.borderRadius, .num 8), (.alignSelf, .str "flex-start")]
  ctaButtonPressed := [(.backgroundColor, .str "#C7D2FE")]
  ctaText := [(.fontSize, .num 15), (.fontWeight, .str "600"),
    (.color, .str "#3730A3"), (.lineHeight, .num 20)]
  sectionStyle := [(.marginBottom, .num 64)]
  sectionTitle := [(.fontSize, .num 28), (.fontWeight, .str "700"),
    (.color, .str "#0F172A"), (.marginBottom, .num 16), (.lineHeight, .num 36)]
  text := [(.fontSize, .num 16), (.fontWeight, .str "400"),
    (.color, .str "#334155"), (.lineHeight, .num 28), (.marginBottom, .num 0)]
  projectsContainer := [(.marginTop, .num 28), (.gap, .num 16)]
  projectCard := [(.backgroundColor, .str "#FFFFFF"), (.borderRadius, .num 10),
    (.paddingVertical, .num 20), (.paddingHorizontal, .num 20),
    (.borderLeftWidth, .num 4), (.borderLeftColor, .str "#4F46E5"),
    (.shadowColor, .str "#000"), (.shadowOffset, .offset 0 2),
    (.shadowOpacity, .num 0.04), (.shadowRadius, .num 6), (.elevation, .num 2)]
  projectTitle := [(.fontSize, .num 18), (.fontWeight, .str "700"),
    (.color, .str "#0F172A"), (.marginBottom, .num 12), (.lineHeight, .num 26)]
  projectDescription := [(.fontSize, .num 15), (.fontWeight, .str "400"),
    (.color, .str "#475569"), (.lineHeight, .num 25), (.marginBottom, .num 14)]
  projectTech := [(.fontSize, .num 13), (.fontWeight, .str "600"),
    (.color, .str "#4F46E5"), (.backgroundColor, .str "#EEF2FF"),
    (.paddingVertical, .num 6), (.paddingHorizontal, .num 12),
    (.borderRadius, .num 5), (.overflow, .str "hidden"),
    (.alignSelf, .str "flex-start")]

/-- Handler `handleViewWork` of part_000, line 125. -/
def handleViewWork (current : Option ScrollViewHandle) :
    Unit × List ScrollCommand :=
  match current with
  | some _ => ((), [ScrollCommand.scrollTo { y := 450, animated := true }])
  | none => ((), [])

/-- Component `HeroSection` of part_000, lines 8-28. -/
def HeroSection (onViewWorkPress : H) : Element H :=
  .view .hero [
    .text .name "Smriti Ray",
    .text .role "Aspiring Data Analyst",
    .text .tagline "Turning data into clear, actionable insights.",
    .pressable
      (fun pressed =>
        if pressed then [Style.ctaButton, Style.ctaButtonPressed]
        else [Style.ctaButton])
      onViewWorkPress
      [.text .ctaText "View My Work"]
  ]

/-- Component `AboutSection` of part_000, lines 30-39. -/
def AboutSection : Element H :=
  .view .sectionStyle [
    .text .sectionTitle "About Me",
    .text .text "I\x27m learning to be a data analyst by working through real problems. I find it exciting when data reveals something useful or interesting—and I focus on making sure my analysis is clear and honest rather than just impressive-looking. I\x27m still growing, but I\x27m committed to doing thoughtful work."
  ]

/-- Component `ProjectCard` of part_000, lines 47-55. -/
def ProjectCard (title description tech : String) : Element H :=
  .view .projectCard [
    .text .projectTitle title,
    .text .projectDescription description,
    .text .projectTech tech
  ]

/-- Component `ProjectsSection` of part_000, lines 68-88. -/
def ProjectsSection (projects : List ProjectData) : Element H :=
  .view .sectionStyle [
    .text .sectionTitle "Projects",
    .text .text "This portfolio shows projects I\x27ve completed through coursework and personal practice. I work with Excel, SQL, and Python to clean data and find insights. Each project taught me something new about how to approach a problem thoughtfully.",
    .view .projectsContainer
      (projects.map (fun project =>
        ProjectCard project.title project.description project.tech))
  ]

/-- Component `ContactSection` of part_000, lines 90-98. -/
def ContactSection : Element H :=
  .view .sectionStyle [
    .text .sectionTitle "Get in Touch",
    .text .text "Email: smritiray2.sr@gmail.com",
    .text .text "GitHub: github.com/smritiray2-sr"
  ]

/-- Literal `projects` of part_000, lines 104-123. -/
def projects : List ProjectData := [
  { id := 1,
    title := "Sales Performance Analysis",
    description := "Analyzed quarterly sales data to identify trends and top-performing regions. Cleaned and visualized data to support business decisions.",
    tech := "Excel, SQL, Tableau" },
  { id := 2,
    title := "Customer Segmentation Study",
    description := "Used Python to segment customers based on purchase behavior and demographics. Created visualizations to guide marketing strategy.",
    tech := "Python, Pandas, Matplotlib" },
  { id := 3,
    title := "Inventory Data Cleanup Project",
    description := "Identified and fixed data quality issues in a product inventory dataset. Documented processes for ongoing data maintenance.",
    tech := "Excel, Python, SQL" }
]

/-- Component `HomeScreen` of part_000, lines 100-137. -/
def HomeScreen (_current : Option ScrollViewHandle) : Element Handler :=
  .scrollView true .container .content [
    HeroSection handleViewWork,
    AboutSection,
    ProjectsSection projects,
    ContactSection
  ]

end Unnamed

-- ============================================================================
-- HELPER LEMMAS
-- ============================================================================

/-- A project card is itself the only card it contains. -/
theorem cards_ProjectCard (t d te : String) :
    cards (ProjectCard t d te : Element H) = [ProjectCard t d te] := rfl

/-- Mapping `ProjectCard` over a project list yields exactly that list of
cards, one per element, in order. -/
theorem cardsList_map_projectCard (ps : List ProjectData) :
    cardsList (H := H)
        (ps.map (fun p => ProjectCard p.title p.description p.tech))
      = ps.map (fun p => ProjectCard p.title p.description p.tech) := by
  induction ps with
  | nil => rfl
  | cons p ps ih =>
    simp only [List.map_cons, cardsList, cards_ProjectCard, ih,
      List.singleton_append]

/-- Project cards register no press handlers. -/
theorem pressHandlers_ProjectCard (t d te : String) :
    pressHandlers (ProjectCard t d te : Element H) = [] := rfl

/-- A list of project cards registers no press handlers. -/
theorem pressHandlersList_map_projectCard (ps : List ProjectData) :
    pressHandlersList (H := H)
        (ps.map (fun p => ProjectCard p.title p.description p.tech)) = [] := by
  induction ps with
  | nil => rfl
  | cons p ps ih =>
    simp only [List.map_cons, pressHandlersList, pressHandlers_ProjectCard,
      ih, List.nil_append]

-- ============================================================================
-- CLAIM THEOREMS
-- ============================================================================

/-- C1. On every render the hero CTA is the unique pressable of the screen
and its handler is `handleViewWork`; pressing it while the scroll container
is attached issues exactly one scroll call, `scrollTo({y: 450, animated:
true})`, and the handler returns only the unit value. -/
theorem hero_cta_press_scrolls_once (r : Option ScrollViewHandle)
    (h : ScrollViewHandle) :
    pressHandlers (HomeScreen r) = [handleViewWork] ∧
    handleViewWork (some h) =
      ((), [ScrollCommand.scrollTo { y := 450, animated := true }]) :=
  ⟨rfl, rfl⟩

/-- Witness for C1 at the concrete attached handle. -/
theorem hero_cta_press_scrolls_once_witness :
    pressHandlers (HomeScreen (some ())) = [handleViewWork] ∧
    handleViewWork (some ()) =
      ((), [ScrollCommand.scrollTo { y := 450, animated := true }]) :=
  hero_cta_press_scrolls_once (some ()) ()

/-- C2. Every render of the screen shows exactly 3 project cards, one per
entry of the hardcoded `projects` list and in its order: Sales Performance
Analysis, then Customer Segmentation Study, then Inventory Data Cleanup
Project. -/
theorem three_cards_in_fixed_order (r : Option ScrollViewHandle) :
    cards (HomeScreen r) =
      projects.map (fun p => ProjectCard p.title p.description p.tech) ∧
    (cards (HomeScreen r)).length = 3 ∧
    projects.map (fun p => p.title) =
      ["Sales Performance Analysis", "Customer Segmentation Study",
        "Inventory Data Cleanup Project"] :=
  ⟨rfl, rfl, rfl⟩

/-- Witness for C2 at the empty ref cell. -/
theorem three_cards_in_fixed_order_witness :
    cards (HomeScreen none) =
      projects.map (fun p => ProjectCard p.title p.description p.tech) ∧
    (cards (HomeScreen none)).length = 3 ∧
    projects.map (fun p => p.title) =
      ["Sales Performance Analysis", "Customer Segmentation Study",
        "Inventory Data Cleanup Project"] :=
  three_cards_in_fixed_order none

/-- C3. A project card displays exactly the title, description and tech
strings it is given, in that order, unchanged; consequently on every render
the card texts are exactly the field values of the `projects` records. -/
theorem card_displays_fields_verbatim (t d te : String)
    (r : Option ScrollViewHandle) :
    directTexts (ProjectCard t d te : Element Handler) = [t, d, te] ∧
    (cards (HomeScreen r)).map directTexts =
      projects.map (fun p => [p.title, p.description, p.tech]) :=
  ⟨rfl, rfl⟩

/-- Witness for C3 at concrete strings and the empty ref cell. -/
theorem card_displays_fields_verbatim_witness :
    directTexts (ProjectCard "a" "b" "c" : Element Handler) = ["a", "b", "c"] ∧
    (cards (HomeScreen none)).map directTexts =
      projects.map (fun p => [p.title, p.description, p.tech]) :=
  card_displays_fields_verbatim "a" "b" "c" none

/-- C4. Pressing the CTA while `scrollViewRef.current` is null is a silent
no-op: the handler terminates normally returning unit (no error), issues no
scroll command, and the ref cell is unchanged. -/
theorem null_ref_press_is_noop :
    pressViewWork none = (none, (), []) :=
  rfl

/-- C5. Rendering is deterministic and stateless: any two renders produce
the same tree, whatever the ref cell holds, and that single rendered state
is the fixed composition of the four sections over the static `projects`
list. -/
theorem render_is_deterministic (r₁ r₂ : Option ScrollViewHandle) :
    HomeScreen r₁ = HomeScreen r₂ ∧
    HomeScreen r₁ =
      Element.scrollView true Style.container Style.content
        [HeroSection handleViewWork, AboutSection, ProjectsSection projects,
          ContactSection] :=
  ⟨rfl, rfl⟩

/-- Witness for C5 at two distinct ref cell values. -/
theorem render_is_deterministic_witness :
    HomeScreen (some ()) = HomeScreen none ∧
    HomeScreen (some ()) =
      Element.scrollView true Style.container Style.content
        [HeroSection handleViewWork, AboutSection, ProjectsSection projects,
          ContactSection] :=
  render_is_deterministic (some ()) none

/-- C6. The identifiers of the fixed project list are pairwise distinct,
the list holds exactly its three literal records, and every render draws
its cards from exactly this constant list (no record is created, changed or
dropped at runtime). -/
theorem project_ids_unique (r : Option ScrollViewHandle) :
    (projects.map (fun p => p.id)).Nodup ∧
    projects.Pairwise (fun p q => p.id ≠ q.id) ∧
    projects.length = 3 ∧
    cards (HomeScreen r) =
      projects.map (fun p => ProjectCard p.title p.description p.tech) :=
  ⟨by decide, by decide, rfl, rfl⟩

/-- Witness for C6 at the empty ref cell. -/
theorem project_ids_unique_witness :
    (projects.map (fun p => p.id)).Nodup ∧
    projects.Pairwise (fun p q => p.id ≠ q.id) ∧
    projects.length = 3 ∧
    cards (HomeScreen none) =
      projects.map (fun p => ProjectCard p.title p.description p.tech) :=
  project_ids_unique none

/-- C7. Every render places exactly the four sections, in the order Hero,
About, Projects, Contact, as the children of the scrollable container, and
the screen ref is attached to that container. -/
theorem four_sections_in_order (r : Option ScrollViewHandle) :
    scrollChildren (HomeScreen r) =
      [HeroSection handleViewWork, AboutSection, ProjectsSection projects,
        ContactSection] ∧
    (scrollChildren (HomeScreen r)).length = 4 ∧
    scrollHasRef (HomeScreen r) = true :=
  ⟨rfl, rfl, rfl⟩

/-- Witness for C7 at the empty ref cell. -/
theorem four_sections_in_order_witness :
    scrollChildren (HomeScreen none) =
      [HeroSection handleViewWork, AboutSection, ProjectsSection projects,
        ContactSection] ∧
    (scrollChildren (HomeScreen none)).length = 4 ∧
    scrollHasRef (HomeScreen none) = true :=
  four_sections_in_order none

/-- C8. Each section is, in this embedding, a pure function of its fixed or
passed-in data (its output is a tree, with no state and no effect
emission); the only handler any section registers is the callback the hero
receives and forwards unchanged to its CTA, while About, Projects and
Contact register none. -/
theorem sections_pure_hero_forwards_callback (h : Handler)
    (ps : List ProjectData) :
    pressHandlers (HeroSection h) = [h] ∧
    pressHandlers (AboutSection : Element Handler) = [] ∧
    pressHandlers (ProjectsSection ps : Element Handler) = [] ∧
    pressHandlers (ContactSection : Element Handler) = [] := by
  refine ⟨rfl, rfl, ?_, rfl⟩
  simp only [ProjectsSection, pressHandlers, pressHandlersList,
    pressHandlersList_map_projectCard, List.nil_append, List.append_nil]

/-- Witness for C8 at the screen handler and the fixed project list. -/
theorem sections_pure_hero_forwards_callback_witness :
    pressHandlers (HeroSection handleViewWork) = [handleViewWork] ∧
    pressHandlers (AboutSection : Element Handler) = [] ∧
    pressHandlers (ProjectsSection projects : Element Handler) = [] ∧
    pressHandlers (ContactSection : Element Handler) = [] :=
  sections_pure_hero_forwards_callback handleViewWork projects

/-- C9. The commented file and the unnamed file define observationally
equivalent programs: same rendered tree for every ref cell value, same
press handler, same project data and same style sheet. -/
theorem two_files_equivalent (r : Option ScrollViewHandle) :
    Unnamed.HomeScreen r = HomeScreen r ∧
    Unnamed.handleViewWork = handleViewWork ∧
    Unnamed.projects = projects ∧
    Unnamed.styles = styles :=
  ⟨rfl, rfl, rfl, rfl⟩

/-- Witness for C9 at the attached handle. -/
theorem two_files_equivalent_witness :
    Unnamed.HomeScreen (some ()) = HomeScreen (some ()) ∧
    Unnamed.handleViewWork = handleViewWork ∧
    Unnamed.projects = projects ∧
    Unnamed.styles = styles :=
  two_files_equivalent (some ())

/-- C10. For every project list (not only the fixed one) the Projects
section renders exactly one card per list element, in list order; the empty
list yields zero cards. -/
theorem one_card_per_project (ps : List ProjectData) :
    cards (ProjectsSection ps : Element Handler) =
      ps.map (fun p => ProjectCard p.title p.description p.tech) ∧
    (cards (ProjectsSection ps : Element Handler)).length = ps.length ∧
    cards (ProjectsSection ([] : List ProjectData) : Element Handler) = [] := by
  have key : ∀ qs : List ProjectData,
      cards (ProjectsSection qs : Element Handler) =
        qs.map (fun p => ProjectCard p.title p.description p.tech) := by
    intro qs
    simp only [ProjectsSection, cards, cardsList,
      cardsList_map_projectCard, List.nil_append, List.append_nil]
    rfl
  exact ⟨key ps, by rw [key ps, List.length_map], key []⟩

/-- Witness for C10 at a concrete singleton list. -/
theorem one_card_per_project_witness :
    cards (ProjectsSection
        [({ id := 7, title := "t", description := "d", tech := "x" }
          : ProjectData)] : Element Handler) =
      [({ id := 7, title := "t", description := "d", tech := "x" }
          : ProjectData)].map
        (fun p => ProjectCard p.title p.description p.tech) ∧
    (cards (ProjectsSection
        [({ id := 7, title := "t", description := "d", tech := "x" }
          : ProjectData)] : Element Handler)).length = 1 ∧
    cards (ProjectsSection ([] : List ProjectData) : Element Handler) = [] :=
  one_card_per_project
    [{ id := 7, title := "t", description := "d", tech := "x" }]
